import Mathlib

/-!
Shallow embedding of `src/ble-script.py`, a single-session BLE light
controller.  The script keeps process-wide mutable state
(`_resolved_device`, `_client`, `_idle_timeout_s`, `_idle_task`) that is
mutated only while holding one asyncio lock; every public operation takes
the lock for its whole duration, so each operation is modelled as a pure
function from a `SessionState` (plus a transport oracle `BLEEnv`) to a
result and a new `SessionState`.  Python exceptions become
`Except BLEError`; each transport primitive that can raise gets its own
error constructor so that the spec's error taxonomy can be stated.
Idle-timer tasks are modelled by generation-counter tokens: arming records
a fresh token, and the worker body (the part of `_idle_disconnect_worker`
after its sleep, which runs under the lock) compares its token with the
session's current one, exactly like the `_idle_task is not
asyncio.current_task()` identity check in the source.
-/

/-- Errors, one constructor per raise site of the script, mapped to the
spec's taxonomy: `invalidArgument` is the `ValueError` of `pkt_color`;
`notFound` is the `RuntimeError("No BLE device found ...")` of
`resolve_device_address`; `connectRaised` is an exception out of the
transport `connect()` call (including the `asyncio.wait_for` timeout);
`failedLiveness` is the `RuntimeError("Failed to connect")` liveness
check; `connectError last` is the final
`RuntimeError(f"Unable to connect: {last_error}")` of `_ensure_connected`;
`writeError` is an exception out of `write_gatt_char`; `disconnectRaised`
is an exception out of the transport `disconnect()` call. -/
inductive BLEError where
  | invalidArgument
  | notFound
  | connectRaised
  | failedLiveness
  | connectError (last : BLEError)
  | writeError
  | disconnectRaised
deriving Repr, DecidableEq

/-- A peripheral as reported by the scanner: `BLEDevice` objects carry a
(possibly empty, standing for `None`) advertised name and an address. -/
structure BLEDevice where
  name : String
  address : String
deriving Repr, DecidableEq

/-- A `BleakClient` handle: the address it was built from and its
`is_connected` flag. -/
structure Client where
  address : String
  is_connected : Bool
deriving Repr, DecidableEq

/-- `MELK_NAMES = ("MELK-OA21",)`. -/
def MELK_NAMES : List String := ["MELK-OA21"]

/-- `WRITE_UUID`. -/
def WRITE_UUID : String := "0000fff3-0000-1000-8000-00805f9b34fb"

/-- `WRITE_WITH_RESPONSE = False`. -/
def WRITE_WITH_RESPONSE : Bool := false

/-- `DEFAULT_IDLE_TIMEOUT_S = 300.0` (seconds, an exact value). -/
def DEFAULT_IDLE_TIMEOUT_S : ℚ := 300

/-- The process-wide mutable state of the script, plus call counters that
index the transport oracle (they count the scan / connect / write /
transport-disconnect calls issued so far, so the oracle can make the n-th
call behave differently from the first). -/
structure SessionState where
  resolvedDevice : Option BLEDevice
  client : Option Client
  idleTimeout : Option ℚ
  idleTask : Option Nat
  nextToken : Nat
  scanCount : Nat
  connectCount : Nat
  writeCount : Nat
  discCount : Nat
deriving Repr, DecidableEq

/-- The state at interpreter start. -/
def initState : SessionState :=
  { resolvedDevice := none, client := none,
    idleTimeout := some DEFAULT_IDLE_TIMEOUT_S, idleTask := none,
    nextToken := 0, scanCount := 0, connectCount := 0, writeCount := 0,
    discCount := 0 }

/-- The transport oracle: what the BLE stack answers to the n-th call of
each primitive.  `scanResults n` is what `BleakScanner.discover` returns
on the n-th scan; `connectResult n = none` means the n-th
`client.connect()` raises (or times out), `some b` means it returns with
`is_connected = b`; `writeOk n` tells whether the n-th `write_gatt_char`
succeeds; `disconnectOk n` tells whether the n-th transport
`client.disconnect()` succeeds. -/
structure BLEEnv where
  scanResults : Nat → List BLEDevice
  connectResult : Nat → Option Bool
  writeOk : Nat → Bool
  disconnectOk : Nat → Bool

/-- Python's substring test `needle in hay` on the character lists of the
two strings: some suffix of `hay` starts with `needle`. -/
def hasSubstring (needle : List Char) : List Char → Bool
  | [] => needle.isEmpty
  | c :: t => List.isPrefixOf needle (c :: t) || hasSubstring needle t

/-- Python's `str.strip()` on a character list: drop whitespace from both
ends. -/
def trimChars (l : List Char) : List Char :=
  ((l.dropWhile Char.isWhitespace).reverse.dropWhile
    Char.isWhitespace).reverse

/-- Python's `str.lower()` on a character list (ASCII case folding, which
covers every target name the script uses). -/
def lowerChars (l : List Char) : List Char := l.map Char.toLower

/-- The match test of `resolve_device_address`:
`name = (device.name or "").strip()` and then
`any(target.lower() in name.lower() for target in MELK_NAMES)`
(case-insensitive substring containment). -/
def nameMatches (rawName : String) : Bool :=
  MELK_NAMES.any fun target =>
    hasSubstring (lowerChars target.data)
      (lowerChars (trimChars rawName.data))

/-- `resolve_device_address()`: return the cached device's address if one
is cached, otherwise scan once, take the first discovered peripheral whose
name matches, cache it and return its address; raise the not-found error
when nothing matches. -/
def resolve_device_address (env : BLEEnv) (st : SessionState) :
    Except BLEError String × SessionState :=
  match st.resolvedDevice with
  | some d => (.ok d.address, st)
  | none =>
    let devices := env.scanResults st.scanCount
    let st1 : SessionState := { st with scanCount := st.scanCount + 1 }
    match devices.find? (fun d => nameMatches d.name) with
    | some d => (.ok d.address, { st1 with resolvedDevice := some d })
    | none => (.error .notFound, st1)

/-- Rendering of the f-string `f"{x:.1f}"` for the rational values the
model stores in place of the script's floats: round `10·q` to the nearest
integer (in lowest terms `q = num/den`, that is
`⌊(20·num + den) / (2·den)⌋`) and print sign, integer part and one
digit. -/
def formatFixed1 (q : ℚ) : String :=
  let n : Int := Int.fdiv (20 * q.num + (q.den : Int)) (2 * (q.den : Int))
  let sign := if n < 0 then "-" else ""
  let m := n.natAbs
  sign ++ toString (m / 10) ++ "." ++ toString (m % 10)

/-- `_idle_timeout_label()`: `"off"` when the timeout is `None`, else the
value formatted to one decimal with an `"s"` suffix. -/
def idle_timeout_label (st : SessionState) : String :=
  match st.idleTimeout with
  | none => "off"
  | some q => formatFixed1 q ++ "s"

/-- `_cancel_idle_task_locked()`: clear the recorded timer token (the
`cancel()` call on the underlying task only stops a still-sleeping worker;
a worker that is never run afterwards has no further state effect, so the
net state effect is exactly `_idle_task = None`). -/
def cancel_idle_task_locked (st : SessionState) : SessionState :=
  { st with idleTask := none }

/-- `_arm_idle_timer_locked()`: cancel the previous timer; do not arm when
no live client exists, when the timeout is `None`, or when it is `≤ 0`;
otherwise record a fresh token for the newly created worker task. -/
def arm_idle_timer_locked (st : SessionState) : SessionState :=
  let st1 := cancel_idle_task_locked st
  match st1.client with
  | none => st1
  | some c =>
    if !c.is_connected then st1
    else
      match st1.idleTimeout with
      | none => st1
      | some q =>
        if q ≤ 0 then st1
        else { st1 with idleTask := some st1.nextToken,
                        nextToken := st1.nextToken + 1 }

/-- Whether `_client is not None and _client.is_connected`. -/
def clientLive (st : SessionState) : Bool :=
  match st.client with
  | some c => c.is_connected
  | none => false

/-- `_disconnect_client(reason)`: cancel the idle timer, then, if a client
exists and is connected, call the transport disconnect inside
`try: ... finally: _client = None` — the handle is cleared whether or not
the transport call raises, but an exception from it propagates to the
caller (there is no `except` clause). -/
def disconnect_client (env : BLEEnv) (st : SessionState) :
    Except BLEError Unit × SessionState :=
  let st1 := cancel_idle_task_locked st
  match st1.client with
  | none => (.ok (), st1)
  | some c =>
    if c.is_connected then
      let ok := env.disconnectOk st1.discCount
      let st2 : SessionState :=
        { st1 with discCount := st1.discCount + 1, client := none }
      if ok then (.ok (), st2) else (.error .disconnectRaised, st2)
    else (.ok (), { st1 with client := none })

/-- The body of `_idle_disconnect_worker` after its sleep, which runs
under the lock: if the session's recorded token is no longer this
worker's token (`_idle_task is not asyncio.current_task()`), return
without touching anything; otherwise disconnect with the idle-timeout
reason.  A worker cancelled during its sleep never reaches this body. -/
def idle_disconnect_worker (env : BLEEnv) (token : Nat)
    (st : SessionState) : Except BLEError Unit × SessionState :=
  if st.idleTask ≠ some token then (.ok (), st)
  else disconnect_client env st

/-- One iteration of the `for attempt in (1, 2)` try-body of
`_ensure_connected`: resolve the address, build a fresh client
(`_client = BleakClient(device_address)`, not yet connected), connect
under `asyncio.wait_for`, raise `failedLiveness` when `is_connected` is
still false, else arm the idle timer and return the client. -/
def connect_attempt (env : BLEEnv) (st : SessionState) :
    Except BLEError Client × SessionState :=
  match resolve_device_address env st with
  | (.error e, st1) => (.error e, st1)
  | (.ok addr, st1) =>
    let st2 : SessionState :=
      { st1 with client := some { address := addr, is_connected := false } }
    match env.connectResult st2.connectCount with
    | none =>
      (.error .connectRaised,
        { st2 with connectCount := st2.connectCount + 1 })
    | some conn =>
      let st3 : SessionState :=
        { st2 with connectCount := st2.connectCount + 1,
                   client := some { address := addr, is_connected := conn } }
      if conn then
        (.ok { address := addr, is_connected := conn },
          arm_idle_timer_locked st3)
      else (.error .failedLiveness, st3)

/-- `_ensure_connected()`: return (re-arming the timer) when already
connected; otherwise clean up, then try `connect_attempt` twice — after
each failure run `_disconnect_client()` (whose own exception would
propagate) and clear the cached device — and wrap the last failure in
`connectError`. -/
def ensure_connected_locked (env : BLEEnv) (st : SessionState) :
    Except BLEError Client × SessionState :=
  if clientLive st then
    (.ok (st.client.getD { address := "", is_connected := false }),
      arm_idle_timer_locked st)
  else
    match disconnect_client env st with
    | (.error e, st0) => (.error e, st0)
    | (.ok _, st0) =>
      match connect_attempt env st0 with
      | (.ok c, st1) => (.ok c, st1)
      | (.error _, st1) =>
        match disconnect_client env st1 with
        | (.error e, st2) => (.error e, st2)
        | (.ok _, st2) =>
          let st2a : SessionState := { st2 with resolvedDevice := none }
          match connect_attempt env st2a with
          | (.ok c, st3) => (.ok c, st3)
          | (.error e2, st3) =>
            match disconnect_client env st3 with
            | (.error e, st4) => (.error e, st4)
            | (.ok _, st4) =>
              (.error (.connectError e2),
                { st4 with resolvedDevice := none })

/-- Public `ensure_connected()`: `_ensure_connected` under the lock,
discarding the returned handle. -/
def ensure_connected (env : BLEEnv) (st : SessionState) :
    Except BLEError Unit × SessionState :=
  match ensure_connected_locked env st with
  | (.ok _, st1) => (.ok (), st1)
  | (.error e, st1) => (.error e, st1)

/-- Public `disconnect()`: `_disconnect_client` under the lock. -/
def disconnect (env : BLEEnv) (st : SessionState) :
    Except BLEError Unit × SessionState :=
  disconnect_client env st

/-- Public `reconnect()`: disconnect then ensure, atomically under the
lock. -/
def reconnect (env : BLEEnv) (st : SessionState) :
    Except BLEError Unit × SessionState :=
  match disconnect_client env st with
  | (.error e, st1) => (.error e, st1)
  | (.ok _, st1) =>
    match ensure_connected_locked env st1 with
    | (.ok _, st2) => (.ok (), st2)
    | (.error e, st2) => (.error e, st2)

/-- `connection_status()`: the status line, built from `clientLive` and
the idle-timeout label. -/
def connection_status (st : SessionState) : String :=
  if clientLive st then
    "connected (idle timeout: " ++ idle_timeout_label st ++ ")"
  else
    "disconnected (idle timeout: " ++ idle_timeout_label st ++ ")"

/-- `set_idle_timeout(value)`: store the value, re-arm (or disarm) the
idle timer, return the label. -/
def set_idle_timeout (value : Option ℚ) (st : SessionState) :
    String × SessionState :=
  let st1 : SessionState := { st with idleTimeout := value }
  let st2 := arm_idle_timer_locked st1
  (idle_timeout_label st2, st2)

/-- One `client.write_gatt_char(WRITE_UUID, payload, response=...)` call:
consult the oracle for the current write index and count the call. -/
def write_gatt_char (env : BLEEnv) (_payload : List Nat)
    (st : SessionState) : Except BLEError Unit × SessionState :=
  let ok := env.writeOk st.writeCount
  let st1 : SessionState := { st with writeCount := st.writeCount + 1 }
  if ok then (.ok (), st1) else (.error .writeError, st1)

/-- `send(payload)`: under the lock, ensure a connection and write; on a
write failure force-disconnect, ensure a fresh connection and write once
more, letting that second failure propagate; on success sleep the
post-write delay (no state effect) and re-arm the idle timer. -/
def send (env : BLEEnv) (payload : List Nat) (st : SessionState) :
    Except BLEError Unit × SessionState :=
  match ensure_connected_locked env st with
  | (.error e, st1) => (.error e, st1)
  | (.ok _, st1) =>
    match write_gatt_char env payload st1 with
    | (.ok _, stW) => (.ok (), arm_idle_timer_locked stW)
    | (.error _, stW) =>
      match disconnect_client env stW with
      | (.error e, st2) => (.error e, st2)
      | (.ok _, st2) =>
        match ensure_connected_locked env st2 with
        | (.error e, st3) => (.error e, st3)
        | (.ok _, st3) =>
          match write_gatt_char env payload st3 with
          | (.error e, st4) => (.error e, st4)
          | (.ok _, st4) => (.ok (), arm_idle_timer_locked st4)

/-- `pkt_power(on)`. -/
def pkt_power (powerOn : Bool) : List Nat :=
  [0x7E, 0x00, 0x04, if powerOn then 0x01 else 0x00, 0x00, 0x00, 0x00,
    0x00, 0xEF]

/-- `pkt_color(r, g, b)`: raise `ValueError` when any component is out of
`0..255`, else build the 9-byte packet. -/
def pkt_color (r g b : Int) : Except BLEError (List Nat) :=
  if ¬ (0 ≤ r ∧ r ≤ 255) then .error .invalidArgument
  else if ¬ (0 ≤ g ∧ g ≤ 255) then .error .invalidArgument
  else if ¬ (0 ≤ b ∧ b ≤ 255) then .error .invalidArgument
  else .ok [0x7E, 0x00, 0x05, 0x03, r.toNat, g.toNat, b.toNat, 0x00, 0xEF]

/-- The `color R G B` dispatch path of `command_loop`:
`await send(pkt_color(r, g, b))` — the packet is encoded first, and an
encoding error aborts before `send` (and hence any transport call) runs. -/
def color_command (env : BLEEnv) (r g b : Int) (st : SessionState) :
    Except BLEError Unit × SessionState :=
  match pkt_color r g b with
  | .error e => (.error e, st)
  | .ok payload => send env payload st

/-- The armed-timer invariant of claim C10: whenever the lock is free, an
armed idle timer implies a recorded connection handle. -/
def timerInv (st : SessionState) : Prop :=
  st.idleTask.isSome = true → st.client.isSome = true

/-- A transport oracle for concrete runs: one matching peripheral, every
connect / write / disconnect succeeds. -/
def envOk : BLEEnv :=
  { scanResults := fun _ => [{ name := "MELK-OA21", address := "11:22" }],
    connectResult := fun _ => some true,
    writeOk := fun _ => true,
    disconnectOk := fun _ => true }

/-- A state with a live connection and an armed timer, for concrete runs. -/
def stConn : SessionState :=
  { initState with
    client := some { address := "11:22", is_connected := true },
    idleTask := some 7, nextToken := 8 }

/-- A transport oracle whose `disconnect()` always raises. -/
def envDiscFail : BLEEnv := { envOk with disconnectOk := fun _ => false }

/-- The state reached by one successful `send` on `envOk` from
`initState`. -/
def sendOkState : SessionState :=
  { resolvedDevice := some { name := "MELK-OA21", address := "11:22" },
    client := some { address := "11:22", is_connected := true },
    idleTimeout := some 300, idleTask := some 1, nextToken := 2,
    scanCount := 1, connectCount := 1, writeCount := 1, discCount := 0 }

/-- The non-matching peripheral `{"OtherDevice", "AA:BB"}`. -/
def otherDev : BLEDevice := { name := "OtherDevice", address := "AA:BB" }

/-- A scan that only ever discovers the non-matching peripheral
`{"OtherDevice", "AA:BB"}`. -/
def envOther : BLEEnv :=
  { envOk with scanResults := fun _ => [otherDev] }

/-- A session that already holds a cached resolved device. -/
def stCached : SessionState :=
  { initState with
    resolvedDevice := some { name := "MELK-OA21", address := "11:22" } }

/-- A transport oracle whose first connect raises and whose second
succeeds — the spec's forced-transport-failure-then-retry scenario. -/
def envRetry : BLEEnv :=
  { envOk with connectResult := fun n => if n = 0 then none else some true }

/-- The state after the failed first connect attempt under `envRetry`. -/
def stRetry1 : SessionState :=
  { resolvedDevice := some { name := "MELK-OA21", address := "11:22" },
    client := some { address := "11:22", is_connected := false },
    idleTimeout := some 300, idleTask := none, nextToken := 0,
    scanCount := 1, connectCount := 1, writeCount := 0, discCount := 0 }

/-- The state after `ensure_connected_locked` succeeds on retry under
`envRetry`. -/
def ensRetryState : SessionState :=
  { resolvedDevice := some { name := "MELK-OA21", address := "11:22" },
    client := some { address := "11:22", is_connected := true },
    idleTimeout := some 300, idleTask := some 0, nextToken := 1,
    scanCount := 2, connectCount := 2, writeCount := 0, discCount := 0 }

/-- A transport oracle whose first write fails and whose later writes
succeed — the dropped-link-then-successful-retry scenario. -/
def envW1 : BLEEnv := { envOk with writeOk := fun n => n != 0 }

/-- A transport oracle whose writes always fail. -/
def envW2 : BLEEnv := { envOk with writeOk := fun _ => false }

/-- The session after the first `_ensure_connected` of a `send` from
`initState` (same under `envW1` and `envW2`). -/
def stEns1 : SessionState :=
  { resolvedDevice := some { name := "MELK-OA21", address := "11:22" },
    client := some { address := "11:22", is_connected := true },
    idleTimeout := some 300, idleTask := some 0, nextToken := 1,
    scanCount := 1, connectCount := 1, writeCount := 1, discCount := 0 }

/-- The session after the forced disconnect that follows the failed first
write. -/
def stDisc2 : SessionState :=
  { resolvedDevice := some { name := "MELK-OA21", address := "11:22" },
    client := none, idleTimeout := some 300, idleTask := none,
    nextToken := 1, scanCount := 1, connectCount := 1, writeCount := 1,
    discCount := 1 }

/-- The session after the fresh `_ensure_connected` of the retry. -/
def stEns3 : SessionState :=
  { resolvedDevice := some { name := "MELK-OA21", address := "11:22" },
    client := some { address := "11:22", is_connected := true },
    idleTimeout := some 300, idleTask := some 1, nextToken := 2,
    scanCount := 1, connectCount := 2, writeCount := 1, discCount := 1 }

lemma arm_client (st : SessionState) :
    (arm_idle_timer_locked st).client = st.client := by
  obtain ⟨rd, cl, it, task, tok, sc, cc, wc, dc⟩ := st
  unfold arm_idle_timer_locked cancel_idle_task_locked
  cases cl with
  | none => rfl
  | some c =>
    cases hc : c.is_connected with
    | false => simp [hc]
    | true =>
      cases it with
      | none => simp [hc]
      | some q => by_cases h0 : q ≤ 0 <;> simp [hc, h0]

lemma arm_idleTimeout (st : SessionState) :
    (arm_idle_timer_locked st).idleTimeout = st.idleTimeout := by
  obtain ⟨rd, cl, it, task, tok, sc, cc, wc, dc⟩ := st
  unfold arm_idle_timer_locked cancel_idle_task_locked
  cases cl with
  | none => rfl
  | some c =>
    cases hc : c.is_connected with
    | false => simp [hc]
    | true =>
      cases it with
      | none => simp [hc]
      | some q => by_cases h0 : q ≤ 0 <;> simp [hc, h0]

lemma arm_isSome (st : SessionState) :
    (arm_idle_timer_locked st).idleTask.isSome = true ↔
      (clientLive st = true ∧ ∃ q, st.idleTimeout = some q ∧ 0 < q) := by
  obtain ⟨rd, cl, it, task, tok, sc, cc, wc, dc⟩ := st
  unfold arm_idle_timer_locked cancel_idle_task_locked clientLive
  cases cl with
  | none => simp
  | some c =>
    cases hc : c.is_connected with
    | false => simp [hc]
    | true =>
      cases it with
      | none => simp [hc]
      | some q =>
        by_cases h0 : q ≤ 0
        · simp [hc, h0, not_lt.mpr h0]
        · simp [hc, h0, not_le.mp h0]

lemma arm_armed (st : SessionState) (q : ℚ) (hc : clientLive st = true)
    (hq : st.idleTimeout = some q) (h0 : 0 < q) :
    arm_idle_timer_locked st =
      { st with idleTask := some st.nextToken,
                nextToken := st.nextToken + 1 } := by
  obtain ⟨rd, cl, it, task, tok, sc, cc, wc, dc⟩ := st
  unfold clientLive at hc
  unfold arm_idle_timer_locked cancel_idle_task_locked
  cases cl with
  | none => simp at hc
  | some c =>
    simp only at hc hq
    subst hq
    simp [hc, not_le.mpr h0]

lemma disconnect_not_live (env : BLEEnv) (st : SessionState)
    (h : clientLive st = false) :
    disconnect_client env st =
      (.ok (), { st with idleTask := none, client := none }) := by
  obtain ⟨rd, cl, it, task, tok, sc, cc, wc, dc⟩ := st
  unfold clientLive at h
  unfold disconnect_client cancel_idle_task_locked
  cases cl with
  | none => rfl
  | some c =>
    simp only at h
    simp [h]

/-- C5 counterexample: on a live connection whose transport `disconnect()`
raises, `_disconnect_client` surfaces the error to its caller (the claim
says the failure is swallowed), even though it does clear the handle and
the timer. -/
theorem disconnect_failure_surfaced_cex :
    (disconnect_client envDiscFail stConn).1 =
      .error .disconnectRaised ∧
    (disconnect_client envDiscFail stConn).1 ≠ .ok () ∧
    (disconnect_client envDiscFail stConn).2.client = none ∧
    (disconnect_client envDiscFail stConn).2.idleTask = none := by
  refine ⟨rfl, fun h => Except.noConfusion h, rfl, rfl⟩

lemma disconnect_client_spec (env : BLEEnv) (st : SessionState) :
    (disconnect_client env st).2.client = none ∧
    (disconnect_client env st).2.idleTask = none ∧
    ((disconnect_client env st).1 = .error .disconnectRaised ↔
      clientLive st = true ∧ env.disconnectOk st.discCount = false) ∧
    ((disconnect_client env st).1 = .ok () ↔
      (clientLive st = false ∨ env.disconnectOk st.discCount = true)) := by
  obtain ⟨rd, cl, it, task, tok, sc, cc, wc, dc⟩ := st
  unfold disconnect_client cancel_idle_task_locked clientLive
  cases cl with
  | none => simp
  | some c =>
    cases hc : c.is_connected with
    | false => simp [hc]
    | true =>
      cases hd : env.disconnectOk dc with
      | false => simp [hc, hd]
      | true => simp [hc, hd]

/-- C5 (amended): every `_disconnect_client` call clears the connection
handle and cancels the idle timer regardless of the transport outcome,
but a transport-disconnect failure on a live connection propagates to the
caller (it raises exactly when the connection was live and the transport
call failed) instead of being swallowed. -/
theorem disconnect_client_behavior (env : BLEEnv) (st : SessionState) :
    (disconnect_client env st).2.client = none ∧
    (disconnect_client env st).2.idleTask = none ∧
    ((disconnect_client env st).1 = .error .disconnectRaised ↔
      clientLive st = true ∧ env.disconnectOk st.discCount = false) ∧
    ((disconnect_client env st).1 = .ok () ↔
      (clientLive st = false ∨ env.disconnectOk st.discCount = true)) :=
  disconnect_client_spec env st

/-- C7: `set_idle_timeout` followed by `connection_status` round-trips the
label — setting `5.0` makes both the setter's return value and the status
line report `"5.0s"`, and setting `None` (disabled) makes them report
`"off"`; the status line is the connected/disconnected prefix with that
label. -/
theorem set_idle_timeout_status_round_trip (st : SessionState) :
    (set_idle_timeout (some 5) st).1 = "5.0s" ∧
    connection_status (set_idle_timeout (some 5) st).2 =
      (if clientLive (set_idle_timeout (some 5) st).2 = true then
        "connected (idle timeout: 5.0s)"
      else "disconnected (idle timeout: 5.0s)") ∧
    (set_idle_timeout none st).1 = "off" ∧
    connection_status (set_idle_timeout none st).2 =
      (if clientLive (set_idle_timeout none st).2 = true then
        "connected (idle timeout: off)"
      else "disconnected (idle timeout: off)") := by
  have hlab5 : ∀ s : SessionState, s.idleTimeout = some 5 →
      idle_timeout_label s = "5.0s" := by
    intro s hs
    unfold idle_timeout_label
    rw [hs]
    decide
  have hlabo : ∀ s : SessionState, s.idleTimeout = none →
      idle_timeout_label s = "off" := by
    intro s hs
    unfold idle_timeout_label
    rw [hs]
  have h5 : ((set_idle_timeout (some 5) st).2).idleTimeout = some 5 := by
    show (arm_idle_timer_locked { st with idleTimeout := some 5 }).idleTimeout
      = some 5
    rw [arm_idleTimeout]
  have ho : ((set_idle_timeout none st).2).idleTimeout = none := by
    show (arm_idle_timer_locked { st with idleTimeout := none }).idleTimeout
      = none
    rw [arm_idleTimeout]
  refine ⟨hlab5 _ h5, ?_, hlabo _ ho, ?_⟩
  · unfold connection_status
    rw [hlab5 _ h5]
    split <;> rfl
  · unfold connection_status
    rw [hlabo _ ho]
    split <;> rfl

/-- C8: `pkt_color` rejects with the invalid-argument error exactly when
some component of R, G, B lies outside `0..255` — and then the `color`
command path returns that error with the session state untouched, so no
transport call occurs — and on in-range components it returns exactly the
9-byte packet `[0x7E, 0x00, 0x05, 0x03, R, G, B, 0x00, 0xEF]`. -/
theorem pkt_color_validation (r g b : Int) :
    (¬ (0 ≤ r ∧ r ≤ 255 ∧ 0 ≤ g ∧ g ≤ 255 ∧ 0 ≤ b ∧ b ≤ 255) →
      pkt_color r g b = .error .invalidArgument ∧
      ∀ env st, color_command env r g b st =
        (.error .invalidArgument, st)) ∧
    ((0 ≤ r ∧ r ≤ 255 ∧ 0 ≤ g ∧ g ≤ 255 ∧ 0 ≤ b ∧ b ≤ 255) →
      pkt_color r g b =
        .ok [0x7E, 0x00, 0x05, 0x03, r.toNat, g.toNat, b.toNat, 0x00,
          0xEF]) := by
  constructor
  · intro h
    have hpk : pkt_color r g b = .error .invalidArgument := by
      unfold pkt_color
      split_ifs with h1 h2 h3 <;> first | rfl | tauto
    refine ⟨hpk, fun env st => ?_⟩
    unfold color_command
    rw [hpk]
  · intro h
    obtain ⟨h1, h2, h3, h4, h5, h6⟩ := h
    unfold pkt_color
    split_ifs with hA hB hC <;> first | rfl | tauto

/-- C8 witness: R = 300 is rejected before any transport call (the state
is returned untouched), and an in-range triple yields the exact packet. -/
theorem pkt_color_validation_witness :
    color_command envOk 300 0 0 initState =
      (.error .invalidArgument, initState) ∧
    pkt_color 10 20 30 =
      .ok [0x7E, 0x00, 0x05, 0x03, 10, 20, 30, 0x00, 0xEF] := by
  constructor
  · exact ((pkt_color_validation 300 0 0).1 (by decide)).2 envOk initState
  · rw [(pkt_color_validation 10 20 30).2 (by decide)]
    rfl

lemma resolve_frame (env : BLEEnv) (st : SessionState) :
    (resolve_device_address env st).2.client = st.client ∧
    (resolve_device_address env st).2.idleTimeout = st.idleTimeout ∧
    (resolve_device_address env st).2.idleTask = st.idleTask ∧
    (resolve_device_address env st).2.nextToken = st.nextToken ∧
    (resolve_device_address env st).2.writeCount = st.writeCount ∧
    (resolve_device_address env st).2.discCount = st.discCount ∧
    (resolve_device_address env st).2.connectCount = st.connectCount := by
  obtain ⟨rd, cl, it, task, tok, sc, cc, wc, dc⟩ := st
  unfold resolve_device_address
  cases rd with
  | some d => simp
  | none =>
    cases hf : (env.scanResults sc).find? (fun d => nameMatches d.name) with
    | some d => simp [hf]
    | none => simp [hf]

lemma arm_frame (st : SessionState) :
    (arm_idle_timer_locked st).scanCount = st.scanCount ∧
    (arm_idle_timer_locked st).connectCount = st.connectCount ∧
    (arm_idle_timer_locked st).writeCount = st.writeCount ∧
    (arm_idle_timer_locked st).discCount = st.discCount ∧
    (arm_idle_timer_locked st).resolvedDevice = st.resolvedDevice := by
  obtain ⟨rd, cl, it, task, tok, sc, cc, wc, dc⟩ := st
  unfold arm_idle_timer_locked cancel_idle_task_locked
  cases cl with
  | none => simp
  | some c =>
    cases hc : c.is_connected with
    | false => simp [hc]
    | true =>
      cases it with
      | none => simp [hc]
      | some q => by_cases h0 : q ≤ 0 <;> simp [hc, h0]

lemma disconnect_frame (env : BLEEnv) (st : SessionState) :
    (disconnect_client env st).2.idleTimeout = st.idleTimeout ∧
    (disconnect_client env st).2.scanCount = st.scanCount ∧
    (disconnect_client env st).2.connectCount = st.connectCount ∧
    (disconnect_client env st).2.writeCount = st.writeCount ∧
    (disconnect_client env st).2.nextToken = st.nextToken ∧
    (disconnect_client env st).2.resolvedDevice = st.resolvedDevice := by
  obtain ⟨rd, cl, it, task, tok, sc, cc, wc, dc⟩ := st
  unfold disconnect_client cancel_idle_task_locked
  cases cl with
  | none => simp
  | some c =>
    cases hc : c.is_connected with
    | false => simp [hc]
    | true =>
      cases hd : env.disconnectOk dc with
      | false => simp [hc, hd]
      | true => simp [hc, hd]

lemma write_char_spec (env : BLEEnv) (p : List Nat) (st : SessionState) :
    (write_gatt_char env p st).2 =
      { st with writeCount := st.writeCount + 1 } ∧
    (write_gatt_char env p st).1 =
      (if env.writeOk st.writeCount then .ok () else .error .writeError) := by
  unfold write_gatt_char
  by_cases h : env.writeOk st.writeCount <;> simp [h]

lemma upd_client_connectCount (s : SessionState) (c : Option Client) :
    ({ s with client := c }).connectCount = s.connectCount := rfl

lemma resolve_error (env : BLEEnv) (st : SessionState) (e : BLEError)
    (s1 : SessionState) (h : resolve_device_address env st = (.error e, s1)) :
    e = .notFound ∧
    (env.scanResults st.scanCount).find? (fun d => nameMatches d.name)
      = none ∧
    st.resolvedDevice = none := by
  obtain ⟨rd, cl, it, task, tok, sc, cc, wc, dc⟩ := st
  unfold resolve_device_address at h
  cases rd with
  | some d => simp at h
  | none =>
    simp only at h
    cases hf : (env.scanResults sc).find? (fun d => nameMatches d.name) with
    | some d => rw [hf] at h; simp at h
    | none =>
      rw [hf] at h
      simp only [Prod.mk.injEq] at h
      exact ⟨(Except.error.inj h.1).symm, rfl, rfl⟩

lemma connect_attempt_ok (env : BLEEnv) (st : SessionState) (c : Client)
    (st' : SessionState) (h : connect_attempt env st = (.ok c, st')) :
    c.is_connected = true ∧ st'.client = some c ∧
    st'.idleTimeout = st.idleTimeout ∧ st'.writeCount = st.writeCount ∧
    (st'.idleTask.isSome = true ↔ ∃ q, st.idleTimeout = some q ∧ 0 < q) := by
  have hrf := resolve_frame env st
  unfold connect_attempt at h
  cases hr : resolve_device_address env st with
  | mk r1 s1 =>
    rw [hr] at h hrf
    cases r1 with
    | error e => simp at h
    | ok addr =>
      simp only [] at h
      cases hcr : env.connectResult s1.connectCount with
      | none =>
        rw [upd_client_connectCount, hcr] at h
        simp at h
      | some conn =>
        rw [upd_client_connectCount, hcr] at h
        cases conn with
        | false => simp at h
        | true =>
          simp only [if_true] at h
          obtain ⟨hc, hst⟩ := Prod.mk.injEq .. |>.mp h |>.imp Except.ok.inj id
          subst hst
          refine ⟨by rw [← hc], ?_, ?_, ?_, ?_⟩
          · rw [arm_client, ← hc]
          · rw [arm_idleTimeout]
            exact hrf.2.1
          · rw [(arm_frame _).2.2.1]
            exact hrf.2.2.2.2.1
          · rw [arm_isSome]
            constructor
            · rintro ⟨-, hq⟩
              rw [← hrf.2.1]; exact hq
            · intro hq
              refine ⟨rfl, ?_⟩
              rw [hrf.2.1]; exact hq

lemma connect_attempt_error (env : BLEEnv) (st : SessionState)
    (e : BLEError) (st' : SessionState) (hl : clientLive st = false)
    (h : connect_attempt env st = (.error e, st')) :
    clientLive st' = false ∧ st'.idleTimeout = st.idleTimeout ∧
    st'.writeCount = st.writeCount ∧ st'.idleTask = st.idleTask ∧
    (e = .notFound ∨ e = .connectRaised ∨ e = .failedLiveness) := by
  have hrf := resolve_frame env st
  unfold connect_attempt at h
  cases hr : resolve_device_address env st with
  | mk r1 s1 =>
    rw [hr] at h hrf
    cases r1 with
    | error e1 =>
      simp only [Prod.mk.injEq] at h
      obtain ⟨he, hst⟩ := h
      subst hst
      have he1 : e1 = .notFound := (resolve_error env st e1 s1 hr).1
      refine ⟨?_, hrf.2.1, hrf.2.2.2.2.1, hrf.2.2.1,
        .inl (by rw [← Except.error.inj he, he1])⟩
      unfold clientLive at hl ⊢
      rw [hrf.1]
      exact hl
    | ok addr =>
      simp only [] at h
      cases hcr : env.connectResult s1.connectCount with
      | none =>
        rw [upd_client_connectCount, hcr] at h
        simp only [Prod.mk.injEq] at h
        obtain ⟨he, hst⟩ := h
        subst hst
        exact ⟨rfl, hrf.2.1, hrf.2.2.2.2.1, hrf.2.2.1,
          .inr (.inl (Except.error.inj he).symm)⟩
      | some conn =>
        rw [upd_client_connectCount, hcr] at h
        cases conn with
        | true => simp at h
        | false =>
          simp only [Bool.false_eq_true, if_false, Prod.mk.injEq] at h
          obtain ⟨he, hst⟩ := h
          subst hst
          exact ⟨rfl, hrf.2.1, hrf.2.2.2.2.1, hrf.2.2.1,
            .inr (.inr (Except.error.inj he).symm)⟩

lemma getD_of_live (st : SessionState) (c : Client) (h : st.client = some c) :
    st.client.getD { address := "", is_connected := false } = c := by
  rw [h]; rfl

lemma ensure_ok (env : BLEEnv) (st : SessionState) (c : Client)
    (st' : SessionState) (h : ensure_connected_locked env st = (.ok c, st')) :
    c.is_connected = true ∧ st'.client = some c ∧
    st'.idleTimeout = st.idleTimeout ∧
    (st'.idleTask.isSome = true ↔ ∃ q, st.idleTimeout = some q ∧ 0 < q) := by
  unfold ensure_connected_locked at h
  by_cases hl : clientLive st = true
  · rw [if_pos hl] at h
    obtain ⟨c0, hc0⟩ : ∃ c0, st.client = some c0 ∧ c0.is_connected = true := by
      unfold clientLive at hl
      cases hcl : st.client with
      | none => rw [hcl] at hl; simp at hl
      | some c1 => rw [hcl] at hl; exact ⟨c1, rfl, hl⟩
    obtain ⟨hcl, hconn⟩ := hc0
    simp only [Prod.mk.injEq] at h
    obtain ⟨hc, hst⟩ := h
    have hc' : c = c0 := by
      rw [← Except.ok.inj hc, getD_of_live st c0 hcl]
    subst hst
    refine ⟨hc' ▸ hconn, ?_, arm_idleTimeout st, ?_⟩
    · rw [arm_client, hcl, hc']
    · rw [arm_isSome]
      exact ⟨fun hx => hx.2, fun hq => ⟨hl, hq⟩⟩
  · rw [if_neg hl] at h
    have hl' : clientLive st = false := by
      cases hb : clientLive st
      · rfl
      · exact absurd hb hl
    rw [disconnect_not_live env st hl'] at h
    simp only [] at h
    set stb : SessionState := { st with idleTask := none, client := none }
      with hstb
    cases ha1 : connect_attempt env stb with
    | mk r1 st1 =>
      rw [ha1] at h
      cases r1 with
      | ok c1 =>
        simp only [Prod.mk.injEq] at h
        obtain ⟨hc, hst⟩ := h
        subst hst
        obtain ⟨h1, h2, h3, h4, h5⟩ :=
          connect_attempt_ok env stb c1 st1 ha1
        have hc' : c = c1 := (Except.ok.inj hc).symm
        subst hc'
        exact ⟨h1, h2, h3, h5⟩
      | error e1 =>
        simp only [] at h
        have hlb : clientLive stb = false := by rw [hstb]; rfl
        obtain ⟨hg1, hg2, hg3, hg4, hg5⟩ :=
          connect_attempt_error env stb e1 st1 hlb ha1
        rw [disconnect_not_live env st1 hg1] at h
        simp only [] at h
        set st2a : SessionState :=
          { st1 with idleTask := none, client := none,
                     resolvedDevice := none } with hst2a
        cases ha2 : connect_attempt env st2a with
        | mk r2 st3 =>
          rw [ha2] at h
          cases r2 with
          | ok c2 =>
            simp only [Prod.mk.injEq] at h
            obtain ⟨hc, hst⟩ := h
            subst hst
            obtain ⟨h1, h2, h3, h4, h5⟩ :=
              connect_attempt_ok env st2a c2 st3 ha2
            have hc' : c = c2 := (Except.ok.inj hc).symm
            subst hc'
            refine ⟨h1, h2, ?_, ?_⟩
            · rw [h3, hst2a]
              show st1.idleTimeout = st.idleTimeout
              rw [hg2, hstb]
            · rw [h5, hst2a]
              show (∃ q, st1.idleTimeout = some q ∧ 0 < q) ↔ _
              rw [hg2, hstb]
          | error e2 =>
            simp only [] at h
            have hl3 : clientLive st3 = false := by
              have hl2a : clientLive st2a = false := by rw [hst2a]; rfl
              exact (connect_attempt_error env st2a e2 st3 hl2a ha2).1
            rw [disconnect_not_live env st3 hl3] at h
            simp at h

lemma ensure_error (env : BLEEnv) (st : SessionState) (e : BLEError)
    (st' : SessionState)
    (h : ensure_connected_locked env st = (.error e, st')) :
    (∃ e2, e = .connectError e2 ∧
      (e2 = .notFound ∨ e2 = .connectRaised ∨ e2 = .failedLiveness)) ∧
    st'.client = none ∧ st'.idleTask = none ∧
    st'.resolvedDevice = none ∧ st'.idleTimeout = st.idleTimeout := by
  unfold ensure_connected_locked at h
  by_cases hl : clientLive st = true
  · rw [if_pos hl] at h
    simp at h
  · rw [if_neg hl] at h
    have hl' : clientLive st = false := by
      cases hb : clientLive st
      · rfl
      · exact absurd hb hl
    rw [disconnect_not_live env st hl'] at h
    simp only [] at h
    set stb : SessionState := { st with idleTask := none, client := none }
      with hstb
    cases ha1 : connect_attempt env stb with
    | mk r1 st1 =>
      rw [ha1] at h
      cases r1 with
      | ok c1 => simp at h
      | error e1 =>
        simp only [] at h
        have hlb : clientLive stb = false := by rw [hstb]; rfl
        obtain ⟨hg1, hg2, hg3, hg4, hg5⟩ :=
          connect_attempt_error env stb e1 st1 hlb ha1
        rw [disconnect_not_live env st1 hg1] at h
        simp only [] at h
        set st2a : SessionState :=
          { st1 with idleTask := none, client := none,
                     resolvedDevice := none } with hst2a
        cases ha2 : connect_attempt env st2a with
        | mk r2 st3 =>
          rw [ha2] at h
          cases r2 with
          | ok c2 => simp at h
          | error e2 =>
            simp only [] at h
            have hl2a : clientLive st2a = false := by rw [hst2a]; rfl
            obtain ⟨hk1, hk2, hk3, hk4, hk5⟩ :=
              connect_attempt_error env st2a e2 st3 hl2a ha2
            rw [disconnect_not_live env st3 hk1] at h
            simp only [Prod.mk.injEq] at h
            obtain ⟨he, hst⟩ := h
            have he' : e = .connectError e2 := (Except.error.inj he).symm
            have hit : st3.idleTimeout = st.idleTimeout := by
              rw [hk2, hst2a]
              show st1.idleTimeout = st.idleTimeout
              rw [hg2, hstb]
            refine ⟨⟨e2, he', hk5⟩, ?_, ?_, ?_, ?_⟩ <;>
              (rw [← hst] <;> first | rfl | exact hit)

lemma resolve_scanCount (env : BLEEnv) (st : SessionState) :
    (resolve_device_address env st).2.scanCount ≤ st.scanCount + 1 := by
  obtain ⟨rd, cl, it, task, tok, sc, cc, wc, dc⟩ := st
  unfold resolve_device_address
  cases rd with
  | some d => simp
  | none =>
    cases hf : (env.scanResults sc).find? (fun d => nameMatches d.name) with
    | some d => simp [hf]
    | none => simp [hf]

lemma connect_attempt_counts (env : BLEEnv) (st : SessionState) :
    (connect_attempt env st).2.writeCount = st.writeCount ∧
    (connect_attempt env st).2.discCount = st.discCount ∧
    (connect_attempt env st).2.scanCount ≤ st.scanCount + 1 ∧
    (connect_attempt env st).2.connectCount ≤ st.connectCount + 1 := by
  have hrf := resolve_frame env st
  have hrs := resolve_scanCount env st
  unfold connect_attempt
  cases hr : resolve_device_address env st with
  | mk r1 s1 =>
    rw [hr] at hrf hrs
    simp only at hrf hrs
    cases r1 with
    | error e => exact ⟨hrf.2.2.2.2.1, hrf.2.2.2.2.2.1, hrs,
        le_trans (le_of_eq hrf.2.2.2.2.2.2) (Nat.le_succ _)⟩
    | ok addr =>
      simp only []
      cases hcr : env.connectResult s1.connectCount with
      | none =>
        refine ⟨hrf.2.2.2.2.1, hrf.2.2.2.2.2.1, hrs, ?_⟩
        show s1.connectCount + 1 ≤ st.connectCount + 1
        rw [hrf.2.2.2.2.2.2]
      | some conn =>
        cases conn with
        | false =>
          simp only [Bool.false_eq_true, if_false]
          refine ⟨hrf.2.2.2.2.1, hrf.2.2.2.2.2.1, hrs, ?_⟩
          show s1.connectCount + 1 ≤ st.connectCount + 1
          rw [hrf.2.2.2.2.2.2]
        | true =>
          simp only [if_true]
          have haf := arm_frame ({ s1 with
            connectCount := s1.connectCount + 1,
            client := some { address := addr, is_connected := true } }
            : SessionState)
          refine ⟨?_, ?_, ?_, ?_⟩
          · rw [haf.2.2.1]
            exact hrf.2.2.2.2.1
          · rw [haf.2.2.2.1]
            exact hrf.2.2.2.2.2.1
          · rw [haf.1]
            exact hrs
          · rw [haf.2.1]
            show s1.connectCount + 1 ≤ st.connectCount + 1
            rw [hrf.2.2.2.2.2.2]

lemma ensure_counts (env : BLEEnv) (st : SessionState) :
    (ensure_connected_locked env st).2.writeCount = st.writeCount ∧
    (ensure_connected_locked env st).2.scanCount ≤ st.scanCount + 2 ∧
    (ensure_connected_locked env st).2.connectCount ≤ st.connectCount + 2 := by
  unfold ensure_connected_locked
  by_cases hl : clientLive st = true
  · rw [if_pos hl]
    have haf := arm_frame st
    exact ⟨haf.2.2.1, le_trans (le_of_eq haf.1) (by omega),
      le_trans (le_of_eq haf.2.1) (by omega)⟩
  · rw [if_neg hl]
    have hl' : clientLive st = false := by
      cases hb : clientLive st
      · rfl
      · exact absurd hb hl
    rw [disconnect_not_live env st hl']
    simp only []
    set stb : SessionState := { st with idleTask := none, client := none }
      with hstb
    have hstbc : stb.writeCount = st.writeCount ∧
        stb.scanCount = st.scanCount ∧
        stb.connectCount = st.connectCount := by
      rw [hstb]; exact ⟨rfl, rfl, rfl⟩
    cases ha1 : connect_attempt env stb with
    | mk r1 st1 =>
      have hc1 := connect_attempt_counts env stb
      rw [ha1] at hc1
      simp only at hc1
      cases r1 with
      | ok c1 =>
        simp only []
        exact ⟨by rw [hc1.1, hstbc.1], by omega, by omega⟩
      | error e1 =>
        simp only []
        have hlb : clientLive stb = false := by rw [hstb]; rfl
        obtain ⟨hg1, hg2, hg3, hg4, hg5⟩ :=
          connect_attempt_error env stb e1 st1 hlb ha1
        rw [disconnect_not_live env st1 hg1]
        simp only []
        set st2a : SessionState :=
          { st1 with idleTask := none, client := none,
                     resolvedDevice := none } with hst2a
        have hst2ac : st2a.writeCount = st1.writeCount ∧
            st2a.scanCount = st1.scanCount ∧
            st2a.connectCount = st1.connectCount := by
          rw [hst2a]; exact ⟨rfl, rfl, rfl⟩
        cases ha2 : connect_attempt env st2a with
        | mk r2 st3 =>
          have hc2 := connect_attempt_counts env st2a
          rw [ha2] at hc2
          simp only at hc2
          cases r2 with
          | ok c2 =>
            simp only []
            refine ⟨?_, ?_, ?_⟩
            · rw [hc2.1, hst2ac.1, hg3, hstbc.1]
            · omega
            · omega
          | error e2 =>
            simp only []
            have hl2a : clientLive st2a = false := by rw [hst2a]; rfl
            obtain ⟨hk1, hk2, hk3, hk4, hk5⟩ :=
              connect_attempt_error env st2a e2 st3 hl2a ha2
            rw [disconnect_not_live env st3 hk1]
            simp only []
            refine ⟨?_, ?_, ?_⟩
            · show st3.writeCount = st.writeCount
              rw [hk3, hst2ac.1, hg3, hstbc.1]
            · show st3.scanCount ≤ st.scanCount + 2
              omega
            · show st3.connectCount ≤ st.connectCount + 2
              omega

/-- C3: with a live connection and an enabled positive idle timeout,
arming the idle timer twice in succession leaves exactly one live timer
token recorded — the second one — and the superseded first timer's worker,
on waking under the lock, sees that its token differs from the session's
current token and exits without changing any state (no disconnect). -/
theorem idle_timer_rearm_supersedes (env : BLEEnv) (st : SessionState)
    (q : ℚ) (hc : clientLive st = true) (hq : st.idleTimeout = some q)
    (h0 : 0 < q) :
    (arm_idle_timer_locked st).idleTask = some st.nextToken ∧
    (arm_idle_timer_locked (arm_idle_timer_locked st)).idleTask =
      some (st.nextToken + 1) ∧
    st.nextToken ≠ st.nextToken + 1 ∧
    idle_disconnect_worker env st.nextToken
        (arm_idle_timer_locked (arm_idle_timer_locked st)) =
      (.ok (), arm_idle_timer_locked (arm_idle_timer_locked st)) := by
  have h1 := arm_armed st q hc hq h0
  have hc1 : clientLive (arm_idle_timer_locked st) = true := by
    unfold clientLive at hc ⊢
    rw [arm_client]
    exact hc
  have hq1 : (arm_idle_timer_locked st).idleTimeout = some q := by
    rw [arm_idleTimeout]
    exact hq
  have h2 := arm_armed (arm_idle_timer_locked st) q hc1 hq1 h0
  have htok2 : (arm_idle_timer_locked (arm_idle_timer_locked st)).idleTask
      = some (st.nextToken + 1) := by
    rw [h2, h1]
  refine ⟨by rw [h1], htok2, Nat.ne_of_lt (Nat.lt_succ_self _), ?_⟩
  unfold idle_disconnect_worker
  rw [if_pos]
  rw [htok2]
  intro hcon
  exact absurd (Option.some.inj hcon) (Nat.ne_of_lt (Nat.lt_succ_self _)).symm

/-- C3 witness: on a concrete connected session with the default 300 s
timeout, double-arming records only the second token and the first
timer's worker is a no-op. -/
theorem idle_timer_rearm_supersedes_witness :
    (arm_idle_timer_locked stConn).idleTask = some stConn.nextToken ∧
    (arm_idle_timer_locked (arm_idle_timer_locked stConn)).idleTask =
      some (stConn.nextToken + 1) ∧
    stConn.nextToken ≠ stConn.nextToken + 1 ∧
    idle_disconnect_worker envOk stConn.nextToken
        (arm_idle_timer_locked (arm_idle_timer_locked stConn)) =
      (.ok (), arm_idle_timer_locked (arm_idle_timer_locked stConn)) :=
  idle_timer_rearm_supersedes envOk stConn 300 rfl rfl (by decide)

lemma clientLive_of_some (st : SessionState) (c : Client)
    (h : st.client = some c) (hc : c.is_connected = true) :
    clientLive st = true := by
  unfold clientLive
  rw [h]
  exact hc

/-- C6: whenever `send` returns successfully, the configured idle timeout
is unchanged and the idle timer is armed in the final state if and only if
the timeout is not disabled (`None`) and is strictly positive. -/
theorem send_success_arms_idle_timer (env : BLEEnv) (payload : List Nat)
    (st st' : SessionState) (h : send env payload st = (.ok (), st')) :
    st'.idleTimeout = st.idleTimeout ∧
    (st'.idleTask.isSome = true ↔
      ∃ q, st.idleTimeout = some q ∧ 0 < q) := by
  unfold send at h
  cases hE : ensure_connected_locked env st with
  | mk r1 st1 =>
    rw [hE] at h
    cases r1 with
    | error e => simp at h
    | ok c =>
      simp only [] at h
      obtain ⟨hE1, hE2, hE3, hE4⟩ := ensure_ok env st c st1 hE
      cases hW : write_gatt_char env payload st1 with
      | mk rw1 stW =>
        rw [hW] at h
        have hws := (write_char_spec env payload st1).1
        rw [hW] at hws
        simp only at hws
        have hWt : stW.idleTimeout = st.idleTimeout := by
          rw [hws]
          show st1.idleTimeout = st.idleTimeout
          exact hE3
        have hlW : clientLive stW = true := by
          refine clientLive_of_some stW c ?_ hE1
          rw [hws]
          show st1.client = some c
          exact hE2
        cases rw1 with
        | ok u =>
          simp only [Prod.mk.injEq] at h
          obtain ⟨-, hst⟩ := h
          subst hst
          refine ⟨by rw [arm_idleTimeout, hWt], ?_⟩
          rw [arm_isSome, hWt]
          exact ⟨fun hx => hx.2, fun hq => ⟨hlW, hq⟩⟩
        | error e1 =>
          simp only [] at h
          cases hD : disconnect_client env stW with
          | mk rd st2 =>
            rw [hD] at h
            cases rd with
            | error e2 => simp at h
            | ok u =>
              simp only [] at h
              have hDf := disconnect_frame env stW
              rw [hD] at hDf
              simp only at hDf
              cases hE2c : ensure_connected_locked env st2 with
              | mk r2 st3 =>
                rw [hE2c] at h
                cases r2 with
                | error e3 => simp at h
                | ok c2 =>
                  simp only [] at h
                  obtain ⟨hF1, hF2, hF3, hF4⟩ :=
                    ensure_ok env st2 c2 st3 hE2c
                  cases hW2 : write_gatt_char env payload st3 with
                  | mk rw2 st4 =>
                    rw [hW2] at h
                    have hws2 := (write_char_spec env payload st3).1
                    rw [hW2] at hws2
                    simp only at hws2
                    cases rw2 with
                    | error e4 => simp at h
                    | ok u2 =>
                      simp only [Prod.mk.injEq] at h
                      obtain ⟨-, hst⟩ := h
                      subst hst
                      have h4t : st4.idleTimeout = st.idleTimeout := by
                        rw [hws2]
                        show st3.idleTimeout = st.idleTimeout
                        rw [hF3, hDf.1, hWt]
                      have hl4 : clientLive st4 = true := by
                        refine clientLive_of_some st4 c2 ?_ hF1
                        rw [hws2]
                        show st3.client = some c2
                        exact hF2
                      refine ⟨by rw [arm_idleTimeout, h4t], ?_⟩
                      rw [arm_isSome, h4t]
                      exact ⟨fun hx => hx.2, fun hq => ⟨hl4, hq⟩⟩

/-- C6 witness: a concrete successful `send` on a fresh session (default
timeout 300 s, which is positive) ends with the idle timer armed. -/
theorem send_success_arms_idle_timer_witness :
    sendOkState.idleTimeout = initState.idleTimeout ∧
    (sendOkState.idleTask.isSome = true ↔
      ∃ q, initState.idleTimeout = some q ∧ 0 < q) :=
  send_success_arms_idle_timer envOk [126] initState sendOkState (by rfl)

/-- C9: the device resolver returns the cached device's address, with the
state (hence the scan count) untouched, when a cache exists; otherwise it
performs exactly one bounded scan and either returns and caches the first
discovered peripheral whose name matches (a peripheral of the scan result
whose stripped, case-folded name contains a target name), or fails with
the not-found error leaving the cache empty. -/
theorem resolve_device_address_spec (env : BLEEnv) (st : SessionState) :
    (∀ d, st.resolvedDevice = some d →
      resolve_device_address env st = (.ok d.address, st)) ∧
    (st.resolvedDevice = none →
      (resolve_device_address env st).2.scanCount = st.scanCount + 1 ∧
      (∀ d, (env.scanResults st.scanCount).find?
            (fun x => nameMatches x.name) = some d →
        (resolve_device_address env st).1 = .ok d.address ∧
        (resolve_device_address env st).2.resolvedDevice = some d ∧
        d ∈ env.scanResults st.scanCount ∧ nameMatches d.name = true) ∧
      ((env.scanResults st.scanCount).find?
            (fun x => nameMatches x.name) = none →
        resolve_device_address env st =
          (.error .notFound,
            { st with scanCount := st.scanCount + 1 }))) := by
  obtain ⟨rd, cl, it, task, tok, sc, cc, wc, dc⟩ := st
  constructor
  · intro d hd
    simp only at hd
    subst hd
    rfl
  · intro hd
    simp only at hd
    subst hd
    unfold resolve_device_address
    simp only
    cases hf : (env.scanResults sc).find? (fun x => nameMatches x.name) with
    | some d =>
      refine ⟨rfl, ?_, ?_⟩
      · intro d1 hd1
        obtain hd1' := Option.some.inj hd1
        subst hd1'
        refine ⟨rfl, rfl, List.mem_of_find?_eq_some hf, ?_⟩
        have h5 := List.find?_some hf
        simpa using h5
      · intro hnone
        simp at hnone
    | none =>
      refine ⟨rfl, ?_, fun _ => rfl⟩
      intro d1 hd1
      simp at hd1

/-- C9 witness: a cached session resolves without scanning; a fresh
session resolves, returns and caches the matching peripheral found by the
scan; a fresh session whose scans only see `OtherDevice` fails with the
not-found error. -/
theorem resolve_device_address_spec_witness :
    resolve_device_address envOk stCached = (.ok "11:22", stCached) ∧
    ((resolve_device_address envOk initState).1 = .ok "11:22" ∧
      (resolve_device_address envOk initState).2.resolvedDevice =
        some { name := "MELK-OA21", address := "11:22" } ∧
      ({ name := "MELK-OA21", address := "11:22" } : BLEDevice)
        ∈ envOk.scanResults initState.scanCount ∧
      nameMatches "MELK-OA21" = true) ∧
    resolve_device_address envOther initState =
      (.error .notFound, { initState with scanCount := 1 }) := by
  refine ⟨(resolve_device_address_spec envOk stCached).1
    { name := "MELK-OA21", address := "11:22" } (by rfl), ?_, ?_⟩
  · exact ((resolve_device_address_spec envOk initState).2 rfl).2.1
      { name := "MELK-OA21", address := "11:22" } rfl
  · exact ((resolve_device_address_spec envOther initState).2 rfl).2.2 rfl

lemma arm_inv (st : SessionState) : timerInv (arm_idle_timer_locked st) := by
  obtain ⟨rd, cl, it, task, tok, sc, cc, wc, dc⟩ := st
  unfold timerInv arm_idle_timer_locked cancel_idle_task_locked
  cases cl with
  | none => simp
  | some c =>
    cases hc : c.is_connected with
    | false => simp [hc]
    | true =>
      cases it with
      | none => simp [hc]
      | some q => by_cases h0 : q ≤ 0 <;> simp [hc, h0]

lemma disconnect_inv (env : BLEEnv) (st : SessionState) :
    timerInv (disconnect_client env st).2 := by
  unfold timerInv
  rw [(disconnect_client_spec env st).2.1]
  simp

lemma ensure_inv (env : BLEEnv) (st : SessionState) :
    timerInv (ensure_connected_locked env st).2 := by
  cases hE : ensure_connected_locked env st with
  | mk r s =>
    simp only []
    cases r with
    | ok c =>
      have h := ensure_ok env st c s hE
      intro _
      rw [h.2.1]
      rfl
    | error e =>
      have h := ensure_error env st e s hE
      intro hx
      rw [h.2.2.1] at hx
      simp at hx

lemma send_inv (env : BLEEnv) (payload : List Nat) (st : SessionState) :
    timerInv (send env payload st).2 := by
  unfold send
  cases hE : ensure_connected_locked env st with
  | mk r1 st1 =>
    cases r1 with
    | error e =>
      simp only []
      have h := ensure_inv env st
      rw [hE] at h
      exact h
    | ok c =>
      simp only []
      obtain ⟨hE1, hE2, hE3, hE4⟩ := ensure_ok env st c st1 hE
      cases hW : write_gatt_char env payload st1 with
      | mk rw1 stW =>
        have hws := (write_char_spec env payload st1).1
        rw [hW] at hws
        simp only at hws
        cases rw1 with
        | ok u =>
          simp only []
          exact arm_inv stW
        | error e1 =>
          simp only []
          cases hD : disconnect_client env stW with
          | mk rd st2 =>
            cases rd with
            | error e2 =>
              simp only []
              have h := disconnect_inv env stW
              rw [hD] at h
              exact h
            | ok u =>
              simp only []
              cases hE2c : ensure_connected_locked env st2 with
              | mk r2 st3 =>
                cases r2 with
                | error e3 =>
                  simp only []
                  have h := ensure_inv env st2
                  rw [hE2c] at h
                  exact h
                | ok c2 =>
                  simp only []
                  obtain ⟨hF1, hF2, hF3, hF4⟩ :=
                    ensure_ok env st2 c2 st3 hE2c
                  cases hW2 : write_gatt_char env payload st3 with
                  | mk rw2 st4 =>
                    have hws2 := (write_char_spec env payload st3).1
                    rw [hW2] at hws2
                    simp only at hws2
                    cases rw2 with
                    | ok u2 =>
                      simp only []
                      exact arm_inv st4
                    | error e4 =>
                      simp only []
                      intro _
                      rw [hws2]
                      show st3.client.isSome = true
                      rw [hF2]
                      rfl

lemma worker_inv (env : BLEEnv) (tok : Nat) (st : SessionState)
    (hinv : timerInv st) :
    timerInv (idle_disconnect_worker env tok st).2 := by
  unfold idle_disconnect_worker
  by_cases hx : st.idleTask ≠ some tok
  · rw [if_pos hx]
    exact hinv
  · rw [if_neg hx]
    exact disconnect_inv env st

/-- C10: the armed-timer invariant — an armed idle timer implies a
recorded connection handle — is re-established or preserved by every
public operation (`ensureConnected`, `disconnect`, `reconnect`,
`setIdleTimeout`, `send`) and by the idle worker's locked section, so it
holds at every point where the serialization lock is released. -/
theorem timer_invariant_preserved (env : BLEEnv) (st : SessionState)
    (payload : List Nat) (v : Option ℚ) (tok : Nat) (hinv : timerInv st) :
    timerInv (ensure_connected_locked env st).2 ∧
    timerInv (disconnect env st).2 ∧
    timerInv (reconnect env st).2 ∧
    timerInv (set_idle_timeout v st).2 ∧
    timerInv (send env payload st).2 ∧
    timerInv (idle_disconnect_worker env tok st).2 := by
  refine ⟨ensure_inv env st, disconnect_inv env st, ?_, ?_,
    send_inv env payload st, worker_inv env tok st hinv⟩
  · unfold reconnect
    cases hD : disconnect_client env st with
    | mk rd st1 =>
      cases rd with
      | error e =>
        simp only []
        have h := disconnect_inv env st
        rw [hD] at h
        exact h
      | ok u =>
        simp only []
        cases hE : ensure_connected_locked env st1 with
        | mk r2 st2 =>
          cases r2 with
          | ok c =>
            simp only []
            have h := ensure_inv env st1
            rw [hE] at h
            exact h
          | error e =>
            simp only []
            have h := ensure_inv env st1
            rw [hE] at h
            exact h
  · show timerInv
      (arm_idle_timer_locked { st with idleTimeout := v })
    exact arm_inv _

/-- C10 witness: on a concrete session already holding an armed timer and
a live handle, every operation leaves the invariant intact. -/
theorem timer_invariant_preserved_witness :
    timerInv (ensure_connected_locked envOk stConn).2 ∧
    timerInv (disconnect envOk stConn).2 ∧
    timerInv (reconnect envOk stConn).2 ∧
    timerInv (set_idle_timeout (some 5) stConn).2 ∧
    timerInv (send envOk [126] stConn).2 ∧
    timerInv (idle_disconnect_worker envOk 7 stConn).2 :=
  timer_invariant_preserved envOk stConn [126] (some 5) 7 (fun _ => rfl)

lemma ensure_attempt1_ok (env : BLEEnv) (st : SessionState)
    (hl : clientLive st = false) (c : Client) (st1 : SessionState)
    (ha : connect_attempt env { st with idleTask := none, client := none }
      = (.ok c, st1)) :
    ensure_connected_locked env st = (.ok c, st1) := by
  have hnl : ¬ clientLive st = true := by rw [hl]; simp
  unfold ensure_connected_locked
  rw [if_neg hnl, disconnect_not_live env st hl]
  simp only []
  rw [ha]

lemma ensure_attempt2 (env : BLEEnv) (st : SessionState)
    (hl : clientLive st = false) (e1 : BLEError) (st1 : SessionState)
    (ha : connect_attempt env { st with idleTask := none, client := none }
      = (.error e1, st1)) :
    (∀ c st3, connect_attempt env
        { st1 with idleTask := none, client := none,
                   resolvedDevice := none } = (.ok c, st3) →
      ensure_connected_locked env st = (.ok c, st3)) ∧
    (∀ e2 st3, connect_attempt env
        { st1 with idleTask := none, client := none,
                   resolvedDevice := none } = (.error e2, st3) →
      (ensure_connected_locked env st).1 =
        .error (.connectError e2)) := by
  have hnl : ¬ clientLive st = true := by rw [hl]; simp
  have hlb : clientLive { st with idleTask := none, client := none }
      = false := rfl
  have hg := connect_attempt_error env _ e1 st1 hlb ha
  constructor
  · intro c st3 ha2
    unfold ensure_connected_locked
    rw [if_neg hnl, disconnect_not_live env st hl]
    simp only []
    rw [ha]
    simp only []
    rw [disconnect_not_live env st1 hg.1]
    simp only []
    rw [ha2]
  · intro e2 st3 ha2
    have hl2a : clientLive
        ({ st1 with idleTask := none, client := none,
                    resolvedDevice := none } : SessionState) = false := rfl
    have hk := connect_attempt_error env _ e2 st3 hl2a ha2
    unfold ensure_connected_locked
    rw [if_neg hnl, disconnect_not_live env st hl]
    simp only []
    rw [ha]
    simp only []
    rw [disconnect_not_live env st1 hg.1]
    simp only []
    rw [ha2]
    simp only []
    rw [disconnect_not_live env st3 hk.1]

/-- C2: with no live connection, `_ensure_connected` performs at most two
connect attempts (at most two scans and two transport connects); on
success it returns a live handle, records it, keeps the configured
timeout and arms the idle timer iff that timeout is enabled and positive;
on failure it fails with `connectError` (wrapping a per-attempt cause)
and leaves handle, timer and device cache cleared; a successful first
attempt is returned directly, and after a failed first attempt the single
retry runs on a state whose cached device has been cleared (forcing a
re-scan), its success becoming the overall result and its failure `e2`
surfacing as `connectError e2` (the last cause). -/
theorem ensure_connected_retry_protocol (env : BLEEnv) (st : SessionState)
    (hl : clientLive st = false) :
    (ensure_connected_locked env st).2.scanCount ≤ st.scanCount + 2 ∧
    (ensure_connected_locked env st).2.connectCount ≤ st.connectCount + 2 ∧
    (∀ c st', ensure_connected_locked env st = (.ok c, st') →
      c.is_connected = true ∧ st'.client = some c ∧
      st'.idleTimeout = st.idleTimeout ∧
      (st'.idleTask.isSome = true ↔
        ∃ q, st.idleTimeout = some q ∧ 0 < q)) ∧
    (∀ e st', ensure_connected_locked env st = (.error e, st') →
      (∃ last, e = .connectError last) ∧ st'.client = none ∧
      st'.idleTask = none ∧ st'.resolvedDevice = none) ∧
    (∀ c st1,
      connect_attempt env { st with idleTask := none, client := none }
        = (.ok c, st1) →
      ensure_connected_locked env st = (.ok c, st1)) ∧
    (∀ e1 st1,
      connect_attempt env { st with idleTask := none, client := none }
        = (.error e1, st1) →
      ({ st1 with idleTask := none, client := none,
                  resolvedDevice := none } : SessionState).resolvedDevice
        = none ∧
      (∀ c st3, connect_attempt env
          { st1 with idleTask := none, client := none,
                     resolvedDevice := none } = (.ok c, st3) →
        ensure_connected_locked env st = (.ok c, st3)) ∧
      (∀ e2 st3, connect_attempt env
          { st1 with idleTask := none, client := none,
                     resolvedDevice := none } = (.error e2, st3) →
        (ensure_connected_locked env st).1 =
          .error (.connectError e2))) := by
  have hnl : ¬ clientLive st = true := by rw [hl]; simp
  refine ⟨(ensure_counts env st).2.1, (ensure_counts env st).2.2,
    ?_, ?_, ?_, ?_⟩
  · intro c st' h
    exact ensure_ok env st c st' h
  · intro e st' h
    obtain ⟨⟨last, hlast, -⟩, h2, h3, h4, -⟩ := ensure_error env st e st' h
    exact ⟨⟨last, hlast⟩, h2, h3, h4⟩
  · intro c st1 ha
    exact ensure_attempt1_ok env st hl c st1 ha
  · intro e1 st1 ha
    exact ⟨rfl, (ensure_attempt2 env st hl e1 st1 ha).1,
      (ensure_attempt2 env st hl e1 st1 ha).2⟩

/-- C2 witness: under `envRetry` a fresh session's first attempt fails
with the raised connect error, the retry runs with the cached device
cleared and succeeds, and that success is the overall result. -/
theorem ensure_connected_retry_protocol_witness :
    ensure_connected_locked envRetry initState =
      (.ok { address := "11:22", is_connected := true }, ensRetryState) ∧
    ({ stRetry1 with idleTask := none, client := none,
                     resolvedDevice := none } : SessionState).resolvedDevice
      = none := by
  have h := ensure_connected_retry_protocol envRetry initState rfl
  have he := h.2.2.2.2.2 BLEError.connectRaised stRetry1 (by rfl)
  exact ⟨he.2.1 { address := "11:22", is_connected := true } ensRetryState
    (by rfl), he.1⟩

/-- C1: `send` first ensures a connection (an ensure failure aborts with
that failure, before any write); it then attempts the transport write; in
total it never issues more than two transport writes (the initial one
plus exactly one retry), and a `writeError` is surfaced only when both
were issued (and the second failed); if the first write succeeds, `send`
succeeds with exactly one write issued; if the first write fails, it
force-disconnects (that disconnect's own failure propagating), ensures a
fresh connection, and retries the write exactly once: a successful retry
makes `send` succeed, a failed retry surfaces `writeError`. -/
theorem send_write_retry_protocol (env : BLEEnv) (payload : List Nat)
    (st : SessionState) :
    (send env payload st).2.writeCount ≤ st.writeCount + 2 ∧
    ((send env payload st).1 = .error .writeError →
      (send env payload st).2.writeCount = st.writeCount + 2) ∧
    (∀ e st1, ensure_connected_locked env st = (.error e, st1) →
      send env payload st = (.error e, st1)) ∧
    (∀ c st1, ensure_connected_locked env st = (.ok c, st1) →
      (env.writeOk st1.writeCount = true →
        (send env payload st).1 = .ok () ∧
        (send env payload st).2.writeCount = st1.writeCount + 1) ∧
      (env.writeOk st1.writeCount = false →
        (∀ e st2, disconnect_client env
            { st1 with writeCount := st1.writeCount + 1 }
            = (.error e, st2) →
          send env payload st = (.error e, st2)) ∧
        (∀ st2, disconnect_client env
            { st1 with writeCount := st1.writeCount + 1 }
            = (.ok (), st2) →
          (∀ e st3, ensure_connected_locked env st2 = (.error e, st3) →
            send env payload st = (.error e, st3)) ∧
          (∀ c2 st3, ensure_connected_locked env st2 = (.ok c2, st3) →
            (env.writeOk st3.writeCount = true →
              (send env payload st).1 = .ok ()) ∧
            (env.writeOk st3.writeCount = false →
              send env payload st =
                (.error .writeError,
                  { st3 with writeCount := st3.writeCount + 1 })))))) := by
  have hwc1 := (ensure_counts env st).1
  unfold send
  cases hE : ensure_connected_locked env st with
  | mk r1 st1' =>
    rw [hE] at hwc1
    simp only at hwc1
    cases r1 with
    | error e1 =>
      simp only []
      obtain ⟨⟨last, hlast, -⟩, -, -, -, -⟩ :=
        ensure_error env st e1 st1' hE
      refine ⟨by omega, ?_, ?_, ?_⟩
      · intro hcon
        subst hlast
        simp at hcon
      · intro e st1 hEq
        simp only [Prod.mk.injEq] at hEq
        rw [(Except.error.inj hEq.1), hEq.2]
      · intro c st1 hEq
        simp at hEq
    | ok c1 =>
      simp only []
      cases hW : write_gatt_char env payload st1' with
      | mk rw1 stW =>
        have hws := (write_char_spec env payload st1').1
        have hwr := (write_char_spec env payload st1').2
        rw [hW] at hws hwr
        simp only at hws hwr
        have hWwc : stW.writeCount = st1'.writeCount + 1 := by
          rw [hws]
        cases hwo : env.writeOk st1'.writeCount with
        | true =>
          rw [hwo, if_pos rfl] at hwr
          subst hwr
          simp only []
          refine ⟨?_, ?_, ?_, ?_⟩
          · rw [(arm_frame stW).2.2.1]
            omega
          · intro hcon
            simp at hcon
          · intro e st1 hEq
            simp at hEq
          · intro c st1 hEq
            simp only [Prod.mk.injEq] at hEq
            obtain ⟨hc, hst1⟩ := hEq
            subst hst1
            constructor
            · intro _
              refine ⟨by trivial, ?_⟩
              rw [(arm_frame stW).2.2.1]
              omega
            · intro hcontra
              rw [hwo] at hcontra
              exact absurd hcontra (by simp)
        | false =>
          rw [hwo] at hwr
          simp only [Bool.false_eq_true, if_false] at hwr
          subst hwr
          simp only []
          cases hD : disconnect_client env stW with
          | mk rd st2' =>
            have hDf := disconnect_frame env stW
            rw [hD] at hDf
            simp only at hDf
            have hDs := disconnect_client_spec env stW
            rw [hD] at hDs
            simp only at hDs
            cases rd with
            | error e2 =>
              simp only []
              have he2 : e2 = .disconnectRaised := by
                by_cases hok : Except.error (α := Unit) e2 = .ok ()
                · simp at hok
                · have hnot := (not_congr hDs.2.2.2).mp hok
                  push_neg at hnot
                  have hcl : clientLive stW = true := by
                    cases hb : clientLive stW
                    · exact absurd hb hnot.1
                    · rfl
                  have := hDs.2.2.1.mpr ⟨hcl, ?_⟩
                  · exact Except.error.inj this.symm |>.symm
                  · cases hb : env.disconnectOk stW.discCount
                    · rfl
                    · exact absurd hb (hnot.2)
              subst he2
              refine ⟨by omega, ?_, ?_, ?_⟩
              · intro hcon
                simp at hcon
              · intro e st1 hEq
                simp at hEq
              · intro c st1 hEq
                simp only [Prod.mk.injEq] at hEq
                obtain ⟨hc, hst1⟩ := hEq
                subst hst1
                constructor
                · intro hcontra
                  rw [hwo] at hcontra
                  exact absurd hcontra (by simp)
                · intro _
                  constructor
                  · intro e st2 hd
                    rw [← hws] at hd
                    rw [hD] at hd
                    simp only [Prod.mk.injEq] at hd
                    rw [(Except.error.inj hd.1), hd.2]
                  · intro st2 hd
                    rw [← hws] at hd
                    rw [hD] at hd
                    simp at hd
            | ok u =>
              simp only []
              cases hE2 : ensure_connected_locked env st2' with
              | mk r2 st3' =>
                have hwc2 := (ensure_counts env st2').1
                rw [hE2] at hwc2
                simp only at hwc2
                cases r2 with
                | error e3 =>
                  simp only []
                  obtain ⟨⟨last3, hlast3, -⟩, -, -, -, -⟩ :=
                    ensure_error env st2' e3 st3' hE2
                  refine ⟨by omega, ?_, ?_, ?_⟩
                  · intro hcon
                    subst hlast3
                    simp at hcon
                  · intro e st1 hEq
                    simp at hEq
                  · intro c st1 hEq
                    simp only [Prod.mk.injEq] at hEq
                    obtain ⟨hc, hst1⟩ := hEq
                    subst hst1
                    constructor
                    · intro hcontra
                      rw [hwo] at hcontra
                      exact absurd hcontra (by simp)
                    · intro _
                      constructor
                      · intro e st2 hd
                        rw [← hws] at hd
                        rw [hD] at hd
                        simp at hd
                      · intro st2 hd
                        rw [← hws] at hd
                        rw [hD] at hd
                        simp only [Prod.mk.injEq] at hd
                        obtain ⟨-, hd2⟩ := hd
                        subst hd2
                        constructor
                        · intro e st3 hEq2
                          rw [hE2] at hEq2
                          simp only [Prod.mk.injEq] at hEq2
                          rw [(Except.error.inj hEq2.1), hEq2.2]
                        · intro c2 st3 hEq2
                          rw [hE2] at hEq2
                          simp at hEq2
                | ok c2 =>
                  simp only []
                  cases hW2 : write_gatt_char env payload st3' with
                  | mk rw2 st4' =>
                    have hws2 := (write_char_spec env payload st3').1
                    have hwr2 := (write_char_spec env payload st3').2
                    rw [hW2] at hws2 hwr2
                    simp only at hws2 hwr2
                    have hW4wc : st4'.writeCount = st3'.writeCount + 1 := by
                      rw [hws2]
                    cases hwo2 : env.writeOk st3'.writeCount with
                    | true =>
                      rw [hwo2, if_pos rfl] at hwr2
                      subst hwr2
                      simp only []
                      refine ⟨?_, ?_, ?_, ?_⟩
                      · rw [(arm_frame st4').2.2.1]
                        omega
                      · intro hcon
                        simp at hcon
                      · intro e st1 hEq
                        simp at hEq
                      · intro c st1 hEq
                        simp only [Prod.mk.injEq] at hEq
                        obtain ⟨hc, hst1⟩ := hEq
                        subst hst1
                        constructor
                        · intro hcontra
                          rw [hwo] at hcontra
                          exact absurd hcontra (by simp)
                        · intro _
                          constructor
                          · intro e st2 hd
                            rw [← hws] at hd
                            rw [hD] at hd
                            simp at hd
                          · intro st2 hd
                            rw [← hws] at hd
                            rw [hD] at hd
                            simp only [Prod.mk.injEq] at hd
                            obtain ⟨-, hd2⟩ := hd
                            subst hd2
                            constructor
                            · intro e st3 hEq2
                              rw [hE2] at hEq2
                              simp at hEq2
                            · intro c2' st3 hEq2
                              rw [hE2] at hEq2
                              simp only [Prod.mk.injEq] at hEq2
                              obtain ⟨hc2, hst3⟩ := hEq2
                              subst hst3
                              constructor
                              · intro _
                                trivial
                              · intro hcontra2
                                rw [hwo2] at hcontra2
                                exact absurd hcontra2 (by simp)
                    | false =>
                      rw [hwo2] at hwr2
                      simp only [Bool.false_eq_true, if_false] at hwr2
                      subst hwr2
                      simp only []
                      refine ⟨?_, ?_, ?_, ?_⟩
                      · omega
                      · intro _
                        omega
                      · intro e st1 hEq
                        simp at hEq
                      · intro c st1 hEq
                        simp only [Prod.mk.injEq] at hEq
                        obtain ⟨hc, hst1⟩ := hEq
                        subst hst1
                        constructor
                        · intro hcontra
                          rw [hwo] at hcontra
                          exact absurd hcontra (by simp)
                        · intro _
                          constructor
                          · intro e st2 hd
                            rw [← hws] at hd
                            rw [hD] at hd
                            simp at hd
                          · intro st2 hd
                            rw [← hws] at hd
                            rw [hD] at hd
                            simp only [Prod.mk.injEq] at hd
                            obtain ⟨-, hd2⟩ := hd
                            subst hd2
                            constructor
                            · intro e st3 hEq2
                              rw [hE2] at hEq2
                              simp at hEq2
                            · intro c2' st3 hEq2
                              rw [hE2] at hEq2
                              simp only [Prod.mk.injEq] at hEq2
                              obtain ⟨hc2, hst3⟩ := hEq2
                              subst hst3
                              constructor
                              · intro hcontra2
                                rw [hwo2] at hcontra2
                                exact absurd hcontra2 (by simp)
                              · intro _
                                rw [← hws2]

/-- C1 witness: with the first write failing, `send` transparently
succeeds through its single reconnect-and-retry cycle (`envW1`), and with
every write failing it surfaces `writeError` after exactly the two write
attempts (`envW2`). -/
theorem send_write_retry_protocol_witness :
    (send envW1 [126] initState).1 = .ok () ∧
    send envW2 [126] initState =
      (.error .writeError,
        { stEns3 with writeCount := stEns3.writeCount + 1 }) ∧
    (send envW2 [126] initState).2.writeCount =
      initState.writeCount + 2 := by
  refine ⟨?_, ?_, ?_⟩
  · have h := (send_write_retry_protocol envW1 [126] initState).2.2.2
      { address := "11:22", is_connected := true }
      { stEns1 with writeCount := 0 } (by rfl)
    have h2 := (h.2 (by rfl)).2 stDisc2 (by rfl)
    have h3 := (h2.2 { address := "11:22", is_connected := true } stEns3
      (by rfl)).1 (by rfl)
    exact h3
  · have h := (send_write_retry_protocol envW2 [126] initState).2.2.2
      { address := "11:22", is_connected := true }
      { stEns1 with writeCount := 0 } (by rfl)
    have h2 := (h.2 (by rfl)).2 stDisc2 (by rfl)
    have h3 := (h2.2 { address := "11:22", is_connected := true } stEns3
      (by rfl)).2 (by rfl)
    exact h3
  · have h := (send_write_retry_protocol envW2 [126] initState).2.1
      (by rfl)
    exact h

lemma connect_attempt_notFound (env : BLEEnv) (st : SessionState)
    (hrd : st.resolvedDevice = none)
    (hscan : (env.scanResults st.scanCount).find?
      (fun d => nameMatches d.name) = none) :
    connect_attempt env st =
      (.error .notFound, { st with scanCount := st.scanCount + 1 }) := by
  unfold connect_attempt resolve_device_address
  rw [hrd]
  simp only []
  rw [hscan]

/-- C4 counterexample: with a fresh session and a scan that discovers only
`{"OtherDevice", "AA:BB"}`, `ensure_connected` fails — but with the
connect error wrapping the not-found cause, not with the bare not-found
error the claim names. -/
theorem ensure_no_match_cex :
    (ensure_connected envOther initState).1 =
      .error (.connectError .notFound) ∧
    (ensure_connected envOther initState).1 ≠ .error .notFound := by
  constructor
  · rfl
  · intro h
    rw [show (ensure_connected envOther initState).1 =
      .error (.connectError .notFound) from rfl] at h
    simp at h

/-- C4 (amended): when no live connection or cached device exists and
every scan discovers only peripherals whose names match no target
substring, `ensure_connected` fails with `connectError` carrying the
not-found error as its last cause (the bare not-found error of the
resolver is wrapped by the connect retry loop). -/
theorem ensure_no_match_connect_error (env : BLEEnv) (st : SessionState)
    (hl : clientLive st = false) (hrd : st.resolvedDevice = none)
    (hscan : ∀ n, (env.scanResults n).find?
      (fun d => nameMatches d.name) = none) :
    (ensure_connected env st).1 = .error (.connectError .notFound) := by
  have h1 : connect_attempt env
      { st with idleTask := none, client := none } =
      (.error .notFound,
        { st with idleTask := none, client := none,
                  scanCount := st.scanCount + 1 }) := by
    have := connect_attempt_notFound env
      { st with idleTask := none, client := none } hrd (hscan st.scanCount)
    exact this
  have h2 := (ensure_attempt2 env st hl .notFound _ h1).2
  have h3 : (ensure_connected_locked env st).1 =
      .error (.connectError .notFound) := by
    exact h2 .notFound _
      (connect_attempt_notFound env _ rfl (hscan (st.scanCount + 1)))
  unfold ensure_connected
  cases hE : ensure_connected_locked env st with
  | mk r s =>
    rw [hE] at h3
    simp only at h3
    subst h3
    rfl

/-- C4 witness: the amended failure shape at the claim's concrete
scenario — fresh session, scans seeing only `OtherDevice`. -/
theorem ensure_no_match_connect_error_witness :
    (ensure_connected envOther initState).1 =
      .error (.connectError .notFound) :=
  ensure_no_match_connect_error envOther initState rfl rfl
    (fun _ => rfl)
